import Mathlib

/-!
Verification development for the response-finalization layer of the gotham
HTTP framework (`src/gotham/src/http/response/mod.rs`).

The Rust source defines three functions:

* `set_headers(state, res, mime, length)` — populates the header collection
  of a response with Content-Length (defaulting to 0), an optional
  Content-Type, and four mandatory security/tracing headers.
* `extend_response(state, res, status, body)` — guards against a platform
  whose `usize` exceeds `u64`, then applies `set_headers`, sets the status
  and conditionally attaches the body (omitted for HEAD requests).
* `create_response(state, status, body)` — allocates a fresh response and
  delegates to `extend_response`.

The embedding below is a direct shallow translation: hyper header
collections become lists of typed header values with replace-on-set
semantics, the mutable `Response` becomes explicit state passing, and the
`panic!` abort becomes the `Except.error` branch of the result. Platform
width (`usize`) is an explicit parameter so the overflow guard can be
analysed for every target width; the `as` casts are modelled as truncation
modulo the destination width.
-/

/-- Modelled from the spec: the MIME/content-type label is treated as an
opaque, comparable value with a wire-serializable textual form. -/
abbrev Mime := String

/-- Modelled from the spec: the inbound HTTP method enum exposed by the
request context (hyper `Method` in the source). -/
inductive Method where
  | Options
  | Get
  | Post
  | Put
  | Delete
  | Head
  | Trace
  | Connect
  | Patch
  | Extension (s : String)
deriving DecidableEq, Repr

/-- Modelled from the spec: the read-only request context, exposing the
inbound HTTP method and a stable per-request correlation identifier
(`state::request_id` and `Method::borrow_from` in the source). -/
structure State where
  requestId : String
  method : Method
deriving DecidableEq, Repr

/-- Modelled from the spec: `request_id(state)` returns the stable
per-request correlation identifier held by the context. -/
def request_id (state : State) : String :=
  state.requestId

/-- Modelled from the spec: `Method::borrow_from(state)` returns the
inbound HTTP method held by the context. -/
def Method.borrow_from (state : State) : Method :=
  state.method

/-- HTTP status code, as the numeric code of the hyper `StatusCode` value. -/
abbrev StatusCode := Nat

/-- The names of the headers manipulated by this core.  Hyper headers are
typed; a name is derived from each typed value. -/
inductive HeaderName where
  | contentLength
  | contentType
  | xRequestId
  | xFrameOptions
  | xXssProtection
  | xContentTypeOptions
  | other (name : String)
deriving DecidableEq, Repr

/-- Modelled from the spec: the `XFrameOptions` header value enum of the
gotham header module (outside `src/`); `Deny` serializes as `DENY`. -/
inductive XFrameOptionsValue where
  | Deny
  | SameOrigin
  | AllowFrom (origin : String)
deriving DecidableEq, Repr

/-- Modelled from the spec: the `XXssProtection` header value enum of the
gotham header module (outside `src/`); `EnableBlock` serializes as
`1; mode=block`. -/
inductive XXssProtectionValue where
  | Disable
  | Enable
  | EnableBlock
deriving DecidableEq, Repr

/-- Modelled from the spec: the `XContentTypeOptions` header value enum of
the gotham header module (outside `src/`); `NoSniff` serializes as
`nosniff`. -/
inductive XContentTypeOptionsValue where
  | NoSniff
deriving DecidableEq, Repr

/-- A typed header value, as inserted by hyper `headers.set(...)`. -/
inductive HeaderValue where
  | contentLength (length : Nat)
  | contentType (mime : Mime)
  | xRequestId (id : String)
  | xFrameOptions (v : XFrameOptionsValue)
  | xXssProtection (v : XXssProtectionValue)
  | xContentTypeOptions (v : XContentTypeOptionsValue)
  | raw (name : String) (value : String)
deriving DecidableEq, Repr

/-- The header name carried by a typed header value. -/
def HeaderValue.name : HeaderValue → HeaderName
  | .contentLength _ => .contentLength
  | .contentType _ => .contentType
  | .xRequestId _ => .xRequestId
  | .xFrameOptions _ => .xFrameOptions
  | .xXssProtection _ => .xXssProtection
  | .xContentTypeOptions _ => .xContentTypeOptions
  | .raw n _ => .other n

/-- Modelled from the spec: the wire-level textual form of each header
value, following the wire-level header contract table (the serialization
code lives in the gotham header module, outside `src/`). -/
def HeaderValue.wire : HeaderValue → String
  | .contentLength n => toString n
  | .contentType m => m
  | .xRequestId id => id
  | .xFrameOptions .Deny => "DENY"
  | .xFrameOptions .SameOrigin => "SAMEORIGIN"
  | .xFrameOptions (.AllowFrom origin) => "ALLOW-FROM " ++ origin
  | .xXssProtection .Disable => "0"
  | .xXssProtection .Enable => "1"
  | .xXssProtection .EnableBlock => "1; mode=block"
  | .xContentTypeOptions .NoSniff => "nosniff"
  | .raw _ v => v

/-- A hyper header collection: a list of typed header values.  Hyper
`Headers::set` replaces any existing value for the same header name. -/
structure Headers where
  entries : List HeaderValue
deriving DecidableEq, Repr

/-- `headers.set(v)`: replace any existing value with the same header name
by `v` (hyper typed-header replace-on-set semantics). -/
def Headers.set (hs : Headers) (v : HeaderValue) : Headers :=
  ⟨hs.entries.filter (fun w => w.name != v.name) ++ [v]⟩

/-- `headers.get::<H>()`: the value stored for a header name, if any. -/
def Headers.get (hs : Headers) (n : HeaderName) : Option HeaderValue :=
  hs.entries.find? (fun w => w.name == n)

/-- The number of values stored for a header name. -/
def Headers.count (hs : Headers) (n : HeaderName) : Nat :=
  (hs.entries.filter (fun w => w.name == n)).length

/-- The response object under construction (hyper `Response`): status code,
header collection and optional body bytes. -/
structure Response where
  status : StatusCode
  headers : Headers
  body : Option (List Nat)
deriving DecidableEq, Repr

/-- `Response::new()`: status `Ok` (200), no headers, no body. -/
def Response.new : Response :=
  { status := 200, headers := ⟨[]⟩, body := none }

/-- `type Body = (Vec<u8>, Mime)` from the source. -/
abbrev Body := List Nat × Mime

/-- The target platform, characterized by the bit width of `usize`. -/
structure Platform where
  usizeBits : Nat
deriving DecidableEq, Repr

/-- `usize::max_value()` on the platform. -/
def Platform.usizeMax (p : Platform) : Nat :=
  2 ^ p.usizeBits - 1

/-- `u64::max_value()`. -/
def u64Max : Nat := 2 ^ 64 - 1

/-- The Rust `as usize` cast: truncation modulo the platform width. -/
def Platform.usizeOfU64 (p : Platform) (n : Nat) : Nat :=
  n % 2 ^ p.usizeBits

/-- The Rust `as u64` cast: truncation modulo `2 ^ 64`. -/
def u64OfUsize (n : Nat) : Nat :=
  n % 2 ^ 64

/-- The diagnostic logged and carried by the `panic!` in `extend_response`:
`[{request id}] unable to handle content_length of response, outside u64
bounds`. -/
def panicMsg (state : State) : String :=
  "[" ++ request_id state ++ "] unable to handle content_length of response, outside u64 bounds"

/-- `set_headers` from the source: set Content-Length (0 when no length is
given), set Content-Type only when a mime is given, then set the four
security/tracing headers unconditionally. -/
def set_headers (state : State) (res : Response) (mime : Option Mime) (length : Option Nat) :
    Response :=
  let headers := res.headers
  let headers :=
    match length with
    | some length => headers.set (.contentLength length)
    | none => headers.set (.contentLength 0)
  let headers :=
    match mime with
    | some mime => headers.set (.contentType mime)
    | none => headers
  let headers := headers.set (.xRequestId (request_id state))
  let headers := headers.set (.xFrameOptions .Deny)
  let headers := headers.set (.xXssProtection .EnableBlock)
  let headers := headers.set (.xContentTypeOptions .NoSniff)
  { res with headers := headers }

/-- `extend_response` from the source: abort (here: `Except.error`) when
`usize::max_value() > u64::max_value() as usize`; otherwise apply
`set_headers`, set the status, and attach the body except for HEAD
requests. -/
def extend_response (p : Platform) (state : State) (res : Response) (status : StatusCode)
    (body : Option Body) : Except String Response :=
  if p.usizeOfU64 u64Max < p.usizeMax then
    Except.error (panicMsg state)
  else
    Except.ok <|
      match body with
      | some (bodyBytes, mime) =>
        let res := set_headers state res (some mime) (some (u64OfUsize bodyBytes.length))
        let res := { res with status := status }
        match Method.borrow_from state with
        | Method.Head => res
        | _ => { res with body := some bodyBytes }
      | none =>
        let res := set_headers state res none none
        { res with status := status }

/-- `create_response` from the source: allocate `Response::new()` and
delegate to `extend_response`. -/
def create_response (p : Platform) (state : State) (status : StatusCode)
    (body : Option Body) : Except String Response :=
  extend_response p state Response.new status body

/-! ## Header collection lemmas -/

theorem find?_set_self (l : List HeaderValue) (v : HeaderValue) :
    ((l.filter (fun w => w.name != v.name)) ++ [v]).find? (fun w => w.name == v.name) = some v := by
  induction l with
  | nil => simp [List.find?]
  | cons w l ih =>
    by_cases hw : w.name = v.name
    · simp [List.filter_cons, hw, ih]
    · simp [List.filter_cons, hw, List.find?_cons, ih]

theorem find?_filter_ne (l : List HeaderValue) (v : HeaderValue) (n : HeaderName)
    (h : n ≠ v.name) :
    (l.filter (fun w => w.name != v.name)).find? (fun w => w.name == n) =
      l.find? (fun w => w.name == n) := by
  have hb : (v.name == n) = false := by simp [Ne.symm h]
  induction l with
  | nil => rfl
  | cons w l ih =>
    by_cases hw : w.name = v.name
    · have hwn : ¬ (w.name = n) := by rw [hw]; exact Ne.symm h
      simp [List.filter_cons, List.find?_cons, hw, hwn, hb, ih]
    · by_cases hwn : w.name = n
      · simp [List.filter_cons, List.find?_cons, hw, hwn, Ne.symm h, h]
      · simp [List.filter_cons, List.find?_cons, hw, hwn, ih]

theorem find?_set_ne (l : List HeaderValue) (v : HeaderValue) (n : HeaderName)
    (h : n ≠ v.name) :
    ((l.filter (fun w => w.name != v.name)) ++ [v]).find? (fun w => w.name == n) =
      l.find? (fun w => w.name == n) := by
  have hb : (v.name == n) = false := by simp [Ne.symm h]
  rw [List.find?_append, find?_filter_ne l v n h]
  have h2 : ([v].find? (fun w => w.name == n)) = none := by
    simp [List.find?, hb]
  rw [h2]
  cases l.find? (fun w => w.name == n) <;> rfl

theorem headers_get_set_eq (hs : Headers) (v : HeaderValue) (n : HeaderName)
    (hn : v.name = n) : (hs.set v).get n = some v := by
  subst hn
  exact find?_set_self hs.entries v

theorem headers_get_set_ne (hs : Headers) (v : HeaderValue) (n : HeaderName)
    (hn : n ≠ v.name) : (hs.set v).get n = hs.get n :=
  find?_set_ne hs.entries v n hn

theorem filter_filter_self (l : List HeaderValue) (v : HeaderValue) :
    (l.filter (fun w => w.name != v.name)).filter (fun w => w.name == v.name) = [] := by
  induction l with
  | nil => rfl
  | cons w l ih =>
    by_cases hw : w.name = v.name
    · simp [List.filter_cons, hw, ih]
    · simp [List.filter_cons, hw, ih]

theorem filter_filter_ne (l : List HeaderValue) (v : HeaderValue) (n : HeaderName)
    (h : n ≠ v.name) :
    (l.filter (fun w => w.name != v.name)).filter (fun w => w.name == n) =
      l.filter (fun w => w.name == n) := by
  induction l with
  | nil => rfl
  | cons w l ih =>
    by_cases hw : w.name = v.name
    · have hwn : ¬ (w.name = n) := by rw [hw]; exact Ne.symm h
      simp [List.filter_cons, hw, hwn, Ne.symm h, ih]
    · by_cases hwn : w.name = n
      · simp [List.filter_cons, hw, hwn, h, Ne.symm h, ih]
      · simp [List.filter_cons, hw, hwn, ih]

theorem headers_count_set_eq (hs : Headers) (v : HeaderValue) (n : HeaderName)
    (hn : v.name = n) : (hs.set v).count n = 1 := by
  subst hn
  unfold Headers.set Headers.count
  rw [List.filter_append, filter_filter_self]
  simp

theorem headers_count_set_ne (hs : Headers) (v : HeaderValue) (n : HeaderName)
    (hn : n ≠ v.name) : (hs.set v).count n = hs.count n := by
  have hb : (v.name == n) = false := by simp [Ne.symm hn]
  unfold Headers.set Headers.count
  rw [List.filter_append, filter_filter_ne hs.entries v n hn]
  simp [hb]

/-! ## `set_headers` characterization -/

theorem set_headers_get (s : State) (res : Response) (m : Option Mime) (l : Option Nat)
    (n : HeaderName) :
    (set_headers s res m l).headers.get n =
      match n with
      | .contentLength => some (.contentLength (l.getD 0))
      | .contentType =>
          match m with
          | some mime => some (.contentType mime)
          | none => res.headers.get .contentType
      | .xRequestId => some (.xRequestId (request_id s))
      | .xFrameOptions => some (.xFrameOptions .Deny)
      | .xXssProtection => some (.xXssProtection .EnableBlock)
      | .xContentTypeOptions => some (.xContentTypeOptions .NoSniff)
      | .other nm => res.headers.get (.other nm) := by
  cases n <;> cases m <;> cases l <;>
    simp [set_headers, headers_get_set_eq, headers_get_set_ne, HeaderValue.name]

theorem set_headers_count_contentLength (s : State) (res : Response) (m : Option Mime)
    (l : Option Nat) :
    (set_headers s res m l).headers.count .contentLength = 1 := by
  cases m <;> cases l <;>
    simp [set_headers, headers_count_set_eq, headers_count_set_ne, HeaderValue.name]

theorem set_headers_status (s : State) (res : Response) (m : Option Mime) (l : Option Nat) :
    (set_headers s res m l).status = res.status := by
  cases m <;> cases l <;> rfl

theorem set_headers_body (s : State) (res : Response) (m : Option Mime) (l : Option Nat) :
    (set_headers s res m l).body = res.body := by
  cases m <;> cases l <;> rfl

/-! ## Overflow-guard arithmetic -/

theorem pred_pow_mod (b : Nat) (hb : b ≤ 64) : (2 ^ 64 - 1) % 2 ^ b = 2 ^ b - 1 := by
  obtain ⟨k, hk⟩ : 2 ^ b ∣ 2 ^ 64 := pow_dvd_pow 2 hb
  have hp : 0 < 2 ^ b := Nat.pow_pos (by norm_num)
  have h64 : 0 < 2 ^ 64 := Nat.pow_pos (by norm_num)
  have hk0 : 0 < k := by
    rcases Nat.eq_zero_or_pos k with h0 | h0
    · rw [h0, Nat.mul_zero] at hk
      omega
    · exact h0
  obtain ⟨k', rfl⟩ : ∃ k', k = k' + 1 := ⟨k - 1, by omega⟩
  rw [hk, Nat.mul_succ]
  have hsplit : 2 ^ b * k' + 2 ^ b - 1 = 2 ^ b * k' + (2 ^ b - 1) := by omega
  rw [hsplit, Nat.mul_add_mod]
  exact Nat.mod_eq_of_lt (by omega)

theorem usize_guard_iff (p : Platform) :
    (p.usizeOfU64 u64Max < p.usizeMax) ↔ (u64Max < p.usizeMax) := by
  unfold Platform.usizeOfU64 Platform.usizeMax u64Max
  rcases le_or_lt p.usizeBits 64 with hb | hb
  · rw [pred_pow_mod p.usizeBits hb]
    have hle : 2 ^ p.usizeBits ≤ 2 ^ 64 := Nat.pow_le_pow_right (by norm_num) hb
    constructor <;> intro h <;> omega
  · have hlt : 2 ^ 64 < 2 ^ p.usizeBits := Nat.pow_lt_pow_right (by norm_num) hb
    have h64 : 0 < 2 ^ 64 := Nat.pow_pos (by norm_num)
    have hm : (2 ^ 64 - 1) % 2 ^ p.usizeBits = 2 ^ 64 - 1 := Nat.mod_eq_of_lt (by omega)
    rw [hm]

theorem no_abort (p : Platform) (hb : p.usizeBits ≤ 64) :
    ¬ (p.usizeOfU64 u64Max < p.usizeMax) := by
  rw [usize_guard_iff]
  unfold Platform.usizeMax u64Max
  have hle : 2 ^ p.usizeBits ≤ 2 ^ 64 := Nat.pow_le_pow_right (by norm_num) hb
  omega

/-! ## `extend_response` characterization -/

theorem extend_response_some_eq (p : Platform) (s : State) (res : Response)
    (status : StatusCode) (bytes : List Nat) (mime : Mime) (hb : p.usizeBits ≤ 64) :
    extend_response p s res status (some (bytes, mime)) =
      Except.ok ⟨status,
        (set_headers s res (some mime) (some (u64OfUsize bytes.length))).headers,
        if s.method = Method.Head then res.body else some bytes⟩ := by
  unfold extend_response Method.borrow_from
  rw [if_neg (no_abort p hb)]
  cases hm : s.method <;> simp [set_headers_body]

theorem extend_response_none_eq (p : Platform) (s : State) (res : Response)
    (status : StatusCode) (hb : p.usizeBits ≤ 64) :
    extend_response p s res status none =
      Except.ok ⟨status, (set_headers s res none none).headers, res.body⟩ := by
  unfold extend_response
  rw [if_neg (no_abort p hb)]
  simp [set_headers_body]

theorem extend_response_ok_shape (p : Platform) (s : State) (res : Response)
    (status : StatusCode) (body : Option Body) (r : Response)
    (h : extend_response p s res status body = Except.ok r) :
    (∃ bytes mime, body = some (bytes, mime) ∧
        r = ⟨status, (set_headers s res (some mime) (some (u64OfUsize bytes.length))).headers,
             if s.method = Method.Head then res.body else some bytes⟩)
    ∨ (body = none ∧ r = ⟨status, (set_headers s res none none).headers, res.body⟩) := by
  unfold extend_response Method.borrow_from at h
  by_cases hg : p.usizeOfU64 u64Max < p.usizeMax
  · rw [if_pos hg] at h
    exact absurd h (by simp)
  · rw [if_neg hg] at h
    cases body with
    | none =>
      right
      refine ⟨rfl, ?_⟩
      simp only [Except.ok.injEq] at h
      rw [← h]
      simp [set_headers_body]
    | some b =>
      obtain ⟨bytes, mime⟩ := b
      left
      refine ⟨bytes, mime, rfl, ?_⟩
      simp only [Except.ok.injEq] at h
      rw [← h]
      cases hm : s.method <;> simp [set_headers_body]

theorem u64OfUsize_eq (p : Platform) (n : Nat) (hb : p.usizeBits ≤ 64)
    (hn : n ≤ p.usizeMax) : u64OfUsize n = n := by
  unfold u64OfUsize
  unfold Platform.usizeMax at hn
  have hle : 2 ^ p.usizeBits ≤ 2 ^ 64 := Nat.pow_le_pow_right (by norm_num) hb
  exact Nat.mod_eq_of_lt (by omega)

/-- C1: every call to `set_headers` (and hence every successful call to
`extend_response` or `create_response`) yields a header collection carrying
X-Frame-Options `DENY`, X-XSS-Protection `1; mode=block`,
X-Content-Type-Options `nosniff`, and X-Request-Id equal to the correlation
id of the context, overriding any caller-supplied values for these
headers. -/
theorem set_headers_security_defaults (s : State) (res : Response) (m : Option Mime)
    (l : Option Nat) (p : Platform) (status : StatusCode) (body : Option Body) :
    ((set_headers s res m l).headers.get .xFrameOptions = some (.xFrameOptions .Deny)
      ∧ (set_headers s res m l).headers.get .xXssProtection = some (.xXssProtection .EnableBlock)
      ∧ (set_headers s res m l).headers.get .xContentTypeOptions
          = some (.xContentTypeOptions .NoSniff)
      ∧ (set_headers s res m l).headers.get .xRequestId = some (.xRequestId (request_id s)))
    ∧ (∀ r, extend_response p s res status body = Except.ok r →
        r.headers.get .xFrameOptions = some (.xFrameOptions .Deny)
        ∧ r.headers.get .xXssProtection = some (.xXssProtection .EnableBlock)
        ∧ r.headers.get .xContentTypeOptions = some (.xContentTypeOptions .NoSniff)
        ∧ r.headers.get .xRequestId = some (.xRequestId (request_id s)))
    ∧ (HeaderValue.xFrameOptions .Deny).wire = "DENY"
    ∧ (HeaderValue.xXssProtection .EnableBlock).wire = "1; mode=block"
    ∧ (HeaderValue.xContentTypeOptions .NoSniff).wire = "nosniff" := by
  refine ⟨⟨?_, ?_, ?_, ?_⟩, ?_, rfl, rfl, rfl⟩
  · simp [set_headers_get]
  · simp [set_headers_get]
  · simp [set_headers_get]
  · simp [set_headers_get]
  · intro r h
    rcases extend_response_ok_shape p s res status body r h with
      ⟨bytes, mime, hbdy, rfl⟩ | ⟨hbdy, rfl⟩ <;>
      exact ⟨by simp [set_headers_get], by simp [set_headers_get],
        by simp [set_headers_get], by simp [set_headers_get]⟩

theorem set_headers_security_defaults_witness :
    (⟨200, ⟨[HeaderValue.contentLength 0, HeaderValue.xRequestId "abc-123",
        HeaderValue.xFrameOptions .Deny, HeaderValue.xXssProtection .EnableBlock,
        HeaderValue.xContentTypeOptions .NoSniff]⟩, none⟩ : Response).headers.get
          .xFrameOptions = some (.xFrameOptions .Deny)
    ∧ (⟨200, ⟨[HeaderValue.contentLength 0, HeaderValue.xRequestId "abc-123",
        HeaderValue.xFrameOptions .Deny, HeaderValue.xXssProtection .EnableBlock,
        HeaderValue.xContentTypeOptions .NoSniff]⟩, none⟩ : Response).headers.get
          .xXssProtection = some (.xXssProtection .EnableBlock)
    ∧ (⟨200, ⟨[HeaderValue.contentLength 0, HeaderValue.xRequestId "abc-123",
        HeaderValue.xFrameOptions .Deny, HeaderValue.xXssProtection .EnableBlock,
        HeaderValue.xContentTypeOptions .NoSniff]⟩, none⟩ : Response).headers.get
          .xContentTypeOptions = some (.xContentTypeOptions .NoSniff)
    ∧ (⟨200, ⟨[HeaderValue.contentLength 0, HeaderValue.xRequestId "abc-123",
        HeaderValue.xFrameOptions .Deny, HeaderValue.xXssProtection .EnableBlock,
        HeaderValue.xContentTypeOptions .NoSniff]⟩, none⟩ : Response).headers.get
          .xRequestId = some (.xRequestId (request_id ⟨"abc-123", Method.Get⟩)) :=
  (set_headers_security_defaults ⟨"abc-123", Method.Get⟩ Response.new none none
    ⟨64⟩ 200 none).2.1
    ⟨200, ⟨[HeaderValue.contentLength 0, HeaderValue.xRequestId "abc-123",
        HeaderValue.xFrameOptions .Deny, HeaderValue.xXssProtection .EnableBlock,
        HeaderValue.xContentTypeOptions .NoSniff]⟩, none⟩ rfl

/-- C2: for HEAD calls supplying a body of length L, the Content-Length
header equals L (computed from the supplied body before the method check)
while the supplied bytes are not attached: the body of the draft is left
unchanged. -/
theorem extend_response_head_content_length (p : Platform) (s : State) (res : Response)
    (status : StatusCode) (bytes : List Nat) (mime : Mime)
    (hm : s.method = Method.Head) (hlen : bytes.length ≤ p.usizeMax)
    (hb : p.usizeBits ≤ 64) :
    ∃ r, extend_response p s res status (some (bytes, mime)) = Except.ok r
      ∧ r.headers.get .contentLength = some (.contentLength bytes.length)
      ∧ r.body = res.body := by
  refine ⟨_, extend_response_some_eq p s res status bytes mime hb, ?_, ?_⟩
  · simp [set_headers_get, u64OfUsize_eq p bytes.length hb hlen]
  · simp [hm]

theorem extend_response_head_content_length_witness :
    ∃ r, extend_response ⟨64⟩ ⟨"abc-123", Method.Head⟩ Response.new 200
        (some ([1, 2, 3], "text/plain")) = Except.ok r
      ∧ r.headers.get .contentLength = some (.contentLength 3)
      ∧ r.body = Response.new.body :=
  extend_response_head_content_length ⟨64⟩ ⟨"abc-123", Method.Head⟩ Response.new 200
    [1, 2, 3] "text/plain" rfl (by decide) (by decide)

/-- C3: for non-HEAD calls with a body of length L and content type T, the
draft carries Content-Length L, Content-Type T, and exactly the supplied
bytes as its body. -/
theorem extend_response_non_head_body (p : Platform) (s : State) (res : Response)
    (status : StatusCode) (bytes : List Nat) (mime : Mime)
    (hm : s.method ≠ Method.Head) (hlen : bytes.length ≤ p.usizeMax)
    (hb : p.usizeBits ≤ 64) :
    ∃ r, extend_response p s res status (some (bytes, mime)) = Except.ok r
      ∧ r.headers.get .contentLength = some (.contentLength bytes.length)
      ∧ r.headers.get .contentType = some (.contentType mime)
      ∧ r.body = some bytes := by
  refine ⟨_, extend_response_some_eq p s res status bytes mime hb, ?_, ?_, ?_⟩
  · simp [set_headers_get, u64OfUsize_eq p bytes.length hb hlen]
  · simp [set_headers_get]
  · simp [hm]

theorem extend_response_non_head_body_witness :
    ∃ r, extend_response ⟨64⟩ ⟨"abc-123", Method.Get⟩ Response.new 200
        (some ([1, 2, 3], "text/plain")) = Except.ok r
      ∧ r.headers.get .contentLength = some (.contentLength 3)
      ∧ r.headers.get .contentType = some (.contentType "text/plain")
      ∧ r.body = some [1, 2, 3] :=
  extend_response_non_head_body ⟨64⟩ ⟨"abc-123", Method.Get⟩ Response.new 200
    [1, 2, 3] "text/plain" (by decide) (by decide) (by decide)

/-- C4: with no body supplied, `create_response` (equally, `extend_response`
on a fresh empty draft) yields Content-Length 0 and no Content-Type. -/
theorem create_response_no_body_headers (p : Platform) (s : State) (status : StatusCode)
    (hb : p.usizeBits ≤ 64) :
    ∃ r, create_response p s status none = Except.ok r
      ∧ extend_response p s Response.new status none = Except.ok r
      ∧ r.headers.get .contentLength = some (.contentLength 0)
      ∧ r.headers.get .contentType = none := by
  have h := extend_response_none_eq p s Response.new status hb
  refine ⟨_, h, h, ?_, ?_⟩
  · simp [set_headers_get]
  · simp only [set_headers_get]
    rfl

theorem create_response_no_body_headers_witness :
    ∃ r, create_response ⟨64⟩ ⟨"abc-123", Method.Get⟩ 202 none = Except.ok r
      ∧ extend_response ⟨64⟩ ⟨"abc-123", Method.Get⟩ Response.new 202 none = Except.ok r
      ∧ r.headers.get .contentLength = some (.contentLength 0)
      ∧ r.headers.get .contentType = none :=
  create_response_no_body_headers ⟨64⟩ ⟨"abc-123", Method.Get⟩ 202 (by decide)

/-- C5: the only abort path of `extend_response` is the platform overflow
guard: it aborts, with a diagnostic carrying the correlation id, exactly
when the maximum `usize` value exceeds the 64-bit ceiling — a condition
independent of the per-request inputs — and is a total successful
computation otherwise. -/
theorem extend_response_abort_guard (p : Platform) (s : State) (res : Response)
    (status : StatusCode) (body : Option Body) :
    (extend_response p s res status body = Except.error (panicMsg s) ↔ u64Max < p.usizeMax)
    ∧ ((extend_response p s res status body).isOk = true ↔ p.usizeMax ≤ u64Max)
    ∧ panicMsg s = "[" ++ request_id s
        ++ "] unable to handle content_length of response, outside u64 bounds" := by
  by_cases hg : p.usizeOfU64 u64Max < p.usizeMax
  · have h1 := (usize_guard_iff p).mp hg
    unfold extend_response
    rw [if_pos hg]
    refine ⟨by simp [h1], ?_, rfl⟩
    have h2 : ¬ (p.usizeMax ≤ u64Max) := by omega
    simp [Except.isOk, Except.toBool, h2]
  · have h1 : ¬ (u64Max < p.usizeMax) := fun hc => hg ((usize_guard_iff p).mpr hc)
    unfold extend_response
    rw [if_neg hg]
    refine ⟨by simp [h1], ?_, rfl⟩
    have h2 : p.usizeMax ≤ u64Max := by omega
    simp [Except.isOk, Except.toBool, h2]

/-- C6 counterexample: on a draft that already carries the body `[9]`, a
HEAD-method call to `extend_response` with supplied body `[1, 2]` returns a
draft still carrying `[9]` — a body that is neither absent, nor omitted,
nor the supplied bytes, so a draft returned for a HEAD request can carry a
body. -/
theorem extend_response_head_body_cex :
    (extend_response ⟨64⟩ ⟨"x", Method.Head⟩ ⟨200, ⟨[]⟩, some [9]⟩ 200
        (some ([1, 2], "text/plain"))).toOption.map Response.body = some (some [9])
    ∧ (some [9] : Option (List Nat)) ≠ none
    ∧ (some [9] : Option (List Nat)) ≠ some [1, 2] :=
  ⟨rfl, by decide, by decide⟩

/-- C6 (amended): after a successful `extend_response`, the body of the
draft is either unchanged from the input draft (always so when the method
is HEAD, and when no body is supplied) or exactly the supplied bytes; in
particular, for an input draft carrying no body, a HEAD request yields a
draft carrying no body. -/
theorem extend_response_body_shape (p : Platform) (s : State) (res : Response)
    (status : StatusCode) (body : Option Body) (r : Response)
    (h : extend_response p s res status body = Except.ok r) :
    (r.body = res.body ∨ ∃ bytes mime, body = some (bytes, mime) ∧ r.body = some bytes)
    ∧ (s.method = Method.Head → r.body = res.body) := by
  rcases extend_response_ok_shape p s res status body r h with
    ⟨bytes, mime, hbdy, rfl⟩ | ⟨hbdy, rfl⟩
  · constructor
    · by_cases hm : s.method = Method.Head
      · left
        simp [hm]
      · right
        exact ⟨bytes, mime, hbdy, by simp [hm]⟩
    · intro hm
      simp [hm]
  · exact ⟨Or.inl rfl, fun _ => rfl⟩

theorem extend_response_body_shape_witness :
    ((none : Option (List Nat)) = Response.new.body
      ∨ ∃ bytes mime, (none : Option Body) = some (bytes, mime)
          ∧ (none : Option (List Nat)) = some bytes)
    ∧ (Method.Head = Method.Head → (none : Option (List Nat)) = Response.new.body) :=
  extend_response_body_shape ⟨64⟩ ⟨"w", Method.Head⟩ Response.new 200 none
    ⟨200, ⟨[HeaderValue.contentLength 0, HeaderValue.xRequestId "w",
      HeaderValue.xFrameOptions .Deny, HeaderValue.xXssProtection .EnableBlock,
      HeaderValue.xContentTypeOptions .NoSniff]⟩, none⟩ rfl

/-- C7 counterexample: a draft whose header collection already contains
Content-Type `text/html`, finalized by `set_headers` with no content-type
label supplied, still contains a Content-Type header — so the finalized
collection can contain a Content-Type even though none was supplied to the
call. -/
theorem set_headers_content_type_cex :
    (set_headers ⟨"x", Method.Get⟩ ⟨200, ⟨[HeaderValue.contentType "text/html"]⟩, none⟩
        none none).headers.get .contentType = some (.contentType "text/html")
    ∧ (set_headers ⟨"x", Method.Get⟩ ⟨200, ⟨[HeaderValue.contentType "text/html"]⟩, none⟩
        none none).headers.get .contentType ≠ none :=
  ⟨rfl, by decide⟩

/-- C7 (amended): a header collection finalized by `set_headers` contains
exactly one Content-Length value (zero when no length was supplied), the
four security headers, and a Content-Type header if and only if a
content-type label was supplied to the call or the input draft's header
collection already contained one. -/
theorem set_headers_finalized_invariant (s : State) (res : Response) (m : Option Mime)
    (l : Option Nat) :
    (set_headers s res m l).headers.count .contentLength = 1
    ∧ (set_headers s res m l).headers.get .contentLength = some (.contentLength (l.getD 0))
    ∧ (set_headers s res m l).headers.get .xRequestId = some (.xRequestId (request_id s))
    ∧ (set_headers s res m l).headers.get .xFrameOptions = some (.xFrameOptions .Deny)
    ∧ (set_headers s res m l).headers.get .xXssProtection = some (.xXssProtection .EnableBlock)
    ∧ (set_headers s res m l).headers.get .xContentTypeOptions
        = some (.xContentTypeOptions .NoSniff)
    ∧ ((set_headers s res m l).headers.get .contentType ≠ none
        ↔ (m ≠ none ∨ res.headers.get .contentType ≠ none)) := by
  refine ⟨set_headers_count_contentLength s res m l, by simp [set_headers_get],
    by simp [set_headers_get], by simp [set_headers_get], by simp [set_headers_get],
    by simp [set_headers_get], ?_⟩
  rw [set_headers_get]
  cases m <;> simp

/-- C8: the status code passed to `extend_response` or `create_response` is
reflected unchanged as the status of the output draft, with or without a
body and for every method. -/
theorem extend_response_status_reflected (p : Platform) (s : State) (res : Response)
    (status : StatusCode) (body : Option Body) :
    (∀ r, extend_response p s res status body = Except.ok r → r.status = status)
    ∧ (∀ r, create_response p s status body = Except.ok r → r.status = status) := by
  constructor
  · intro r h
    rcases extend_response_ok_shape p s res status body r h with
      ⟨bytes, mime, hbdy, rfl⟩ | ⟨hbdy, rfl⟩ <;> rfl
  · intro r h
    rcases extend_response_ok_shape p s Response.new status body r h with
      ⟨bytes, mime, hbdy, rfl⟩ | ⟨hbdy, rfl⟩ <;> rfl

theorem extend_response_status_reflected_witness :
    (⟨201, ⟨[HeaderValue.contentLength 0, HeaderValue.xRequestId "a",
      HeaderValue.xFrameOptions .Deny, HeaderValue.xXssProtection .EnableBlock,
      HeaderValue.xContentTypeOptions .NoSniff]⟩, none⟩ : Response).status = 201 :=
  (extend_response_status_reflected ⟨64⟩ ⟨"a", Method.Get⟩ Response.new 201 none).1
    ⟨201, ⟨[HeaderValue.contentLength 0, HeaderValue.xRequestId "a",
      HeaderValue.xFrameOptions .Deny, HeaderValue.xXssProtection .EnableBlock,
      HeaderValue.xContentTypeOptions .NoSniff]⟩, none⟩ rfl

/-- C9: `create_response` is exactly the composition of allocating a fresh
empty draft and calling `extend_response` on it; the fresh draft has an
empty header collection and no body. -/
theorem create_response_is_composition (p : Platform) (s : State) (status : StatusCode)
    (body : Option Body) :
    create_response p s status body = extend_response p s Response.new status body
    ∧ Response.new.headers = ⟨[]⟩ ∧ Response.new.body = none :=
  ⟨rfl, rfl, rfl⟩

/-- C10: `set_headers` mutates only the header collection of the draft: the
status code and the body are unchanged, and (being total) the call has no
failure mode. -/
theorem set_headers_mutates_only_headers (s : State) (res : Response) (m : Option Mime)
    (l : Option Nat) :
    (set_headers s res m l).status = res.status ∧ (set_headers s res m l).body = res.body :=
  ⟨set_headers_status s res m l, set_headers_body s res m l⟩
